import Mathlib

/-
  Verification development for the cashflow_tracker repository.

  Shallow embedding conventions:
  * A pandas DataFrame of transactions is a `List` of records; a pandas
    Series (one row) is a record.  A missing cell (None / NaN) is `none`.
  * Monetary amounts are rationals (`ℚ`): the source coerces the Amount
    column with `.astype(float)` and all arithmetic on it is exact
    field arithmetic at the inputs considered here.
  * Python dicts (which preserve insertion order) are association lists
    `List (key × value)`; membership / lookup is first-match, as for a
    dict with unique keys.
  * The embedding covers frames whose `Date`, `Description` and `Amount`
    columns are already canonically named and typed (callers passing
    `date_col = None`, `amount_col = None`); the column-renaming and
    dtype-coercion steps of `clean_transaction_data` are then the
    identity and the claims under study concern only the Type/Amount
    inference block.
-/

/-- One transaction record, after the schema columns have been ensured.
Fields mirror `TransactionSchema.get_columns()` of `core/schema.py`:
Date, Description, Amount, Type, Category, Subcategory, Producer/Vendor,
Payment Method, Notes. -/
structure Transaction where
  date : Option String
  description : Option String
  amount : ℚ
  type : Option String
  category : Option String
  subcategory : Option String
  producer : Option String
  paymentMethod : Option String
  notes : Option String
  deriving DecidableEq, Repr

/-- A raw input frame for `clean_transaction_data`.  `hasTypeCol` records
whether the `Type` column exists in the source frame (in pandas a column
exists for all rows or for none); when it is `false` the per-row `type`
fields are immaterial — the cleaner creates the column filled with `None`. -/
structure RawFrame where
  hasTypeCol : Bool
  rows : List Transaction
  deriving DecidableEq, Repr

/-- Step 3 of `clean_transaction_data` (`processing.py:43-45`): add any
missing schema column with value `None`.  In the record model only the
presence of the `Type` column is tracked; the other optional fields
already carry `none` for missing cells. -/
def withSchemaCols (f : RawFrame) : List Transaction :=
  f.rows.map (fun r => if f.hasTypeCol then r else { r with type := none })

/-- Condition of `processing.py:48`:
`TransactionSchema.TYPE not in df.columns or df[TransactionSchema.TYPE].isna().any()`
(evaluated on the original frame `df`). -/
def typeInferenceNeeded (f : RawFrame) : Bool :=
  !f.hasTypeCol || f.rows.any (fun r => r.type.isNone)

/-- The Type/Amount inference block of `processing.py:49-56`: the mask
`Amount >= 0` selects the rows set to `Income`, its complement the rows
set to `Expense` (every row is assigned), and then the rows whose (new)
`Type` equals `Expense` get `Amount` replaced by its absolute value. -/
def inferTypesAndAbs (rows : List Transaction) : List Transaction :=
  let typed := rows.map (fun r =>
    if 0 ≤ r.amount then { r with type := some "Income" }
    else { r with type := some "Expense" })
  typed.map (fun r =>
    if r.type = some "Expense" then { r with amount := |r.amount| } else r)

/-- Embedding of `clean_transaction_data` (`processing.py:11-58`) restricted to the
canonical-column model (see the header comment): ensure the schema
columns, then run the type-inference block when the `Type` column is
absent or any of its cells is unset.  The final restriction
`clean_df[TransactionSchema.get_columns()]` is the identity on the
record model. -/
def clean_transaction_data (f : RawFrame) : List Transaction :=
  let clean := withSchemaCols f
  if typeInferenceNeeded f then inferTypesAndAbs clean else clean

/-- An otherwise-empty transaction row, convenient for building inputs. -/
def blankRow : Transaction :=
  { date := none, description := none, amount := 0, type := none,
    category := none, subcategory := none, producer := none,
    paymentMethod := none, notes := none }

/-- Input frame refuting C1: the caller supplies `Type` for its single
row (so `isna().any()` is false and the inference block is skipped) and
the amount is negative. -/
def exC1 : RawFrame :=
  { hasTypeCol := true
    rows := [{ blankRow with
                 description := some "Card refund reversal"
                 amount := -50
                 type := some "Expense" }] }

/-- The test fixture of `test_processing.py:27-31`: raw amounts
1000.0, -50.0, -15.99 and no `Type` column. -/
def exC2 : RawFrame :=
  { hasTypeCol := false
    rows := [{ blankRow with description := some "Salary Payment", amount := 1000 },
             { blankRow with description := some "Groceries at Walmart", amount := -50 },
             { blankRow with description := some "Netflix Subscription", amount := mkRat (-1599) 100 }] }

/-- Python `str(cell)` on a possibly-missing cell: a missing cell of an
object column holds `None` and prints as the string `None` (a numeric
NaN cell would print as `nan`; no claim under study depends on which). -/
def strCell : Option String → String
  | some s => s
  | none => "None"

/-- Python `str.lower()`, character by character (the inputs under
study are ASCII, where Python and `Char.toLower` agree). -/
def pyLower (s : String) : String :=
  ⟨s.data.map Char.toLower⟩

/-- Whether `needle` occurs as a contiguous substring of the character
list, i.e. the Python `needle in haystack` test on strings. -/
def hasSubstring (needle : List Char) : List Char → Bool
  | [] => needle.isEmpty
  | c :: rest => needle.isPrefixOf (c :: rest) || hasSubstring needle rest

/-- Python `needle in haystack` on strings. -/
def pyIn (needle hay : String) : Bool :=
  hasSubstring needle.data hay.data

/-- Inner loop of `categorize_transaction` (`processing.py:88-91`): scan
the keyword list of one category in order, returning the category on the
first keyword that is a substring of the (already lower-cased)
description. -/
def scanKeywords (cat : String) (desc : String) : List String → Option String
  | [] => none
  | kw :: rest => if pyIn (pyLower kw) desc then some cat else scanKeywords cat desc rest

/-- Outer loop of `categorize_transaction` (`processing.py:87-91`): scan
the rule table in its given order. -/
def scanRules (desc : String) : List (String × List String) → Option String
  | [] => none
  | (cat, kws) :: rest =>
    match scanKeywords cat desc kws with
    | some c => some c
    | none => scanRules desc rest

/-- The producer-map test of `processing.py:78-79`:
`producer_category_map and transaction[PRODUCER] in producer_category_map`,
followed by the dict lookup.  An absent map (`None`) and an empty map
are both falsy; a missing producer cell (NaN) is not a key of a
string-keyed dict. -/
def producerHit (t : Transaction) (pmap : Option (List (String × String))) : Option String :=
  match pmap with
  | some m => if m.isEmpty then none else t.producer.bind (fun p => m.lookup p)
  | none => none

/-- Embedding of `categorize_transaction` (`processing.py:61-99`).  The Python
signature defaults `producer_category_map` to `None`; the default is
passed explicitly here.  Decision order: producer map, then keyword
rules over the lower-cased description, then a default from `Type`. -/
def categorize_transaction (t : Transaction) (category_rules : List (String × List String))
    (producer_category_map : Option (List (String × String))) : Transaction :=
  match producerHit t producer_category_map with
  | some c => { t with category := some c }
  | none =>
    let description := pyLower (strCell t.description)
    match scanRules description category_rules with
    | some c => { t with category := some c }
    | none =>
      if t.type = some "Income" then { t with category := some "Income" }
      else { t with category := some "Miscellaneous" }

/-- Pattern-table scan of `extract_producer` (`processing.py:143-147`):
first pattern whose regular-expression search succeeds on the
description wins.  The regex engine (`re.search` with `re.IGNORECASE`)
is an external library, abstracted as the `reSearch` parameter. -/
def scanPatterns (reSearch : String → String → Bool) (desc : String) :
    List (String × String) → Option String
  | [] => none
  | (pat, prod) :: rest =>
    if reSearch pat desc then some prod else scanPatterns reSearch desc rest

/-- Worker for `pySplit`: `cur` accumulates the current word in
reverse; whitespace closes a word, empty pieces are dropped. -/
def pySplitGo (cur : List Char) : List Char → List String
  | [] => if cur.isEmpty then [] else [⟨cur.reverse⟩]
  | c :: rest =>
    if c.isWhitespace then
      if cur.isEmpty then pySplitGo [] rest
      else (⟨cur.reverse⟩ : String) :: pySplitGo [] rest
    else pySplitGo (c :: cur) rest

/-- Python `description.split()`: split on runs of whitespace, dropping
empty pieces. -/
def pySplit (s : String) : List String :=
  pySplitGo [] s.data

/-- Python truthiness of `producer_patterns` (`processing.py:143`): an
absent (`None`) pattern table behaves as the empty table. -/
def patternsOf : Option (List (String × String)) → List (String × String)
  | some l => l
  | none => []

/-- Embedding of `extract_producer` (`processing.py:122-154`), with the regex search
abstracted as `reSearch` and the `producer_patterns = None` default
passed explicitly.  If the producer is already set the copy is returned
unchanged; otherwise the first matching pattern wins, else the first
whitespace-delimited word of the description (if any) is used. -/
def extract_producer (reSearch : String → String → Bool) (t : Transaction)
    (producer_patterns : Option (List (String × String))) : Transaction :=
  if t.producer.isSome then t
  else
    let description := strCell t.description
    match scanPatterns reSearch description (patternsOf producer_patterns) with
    | some prod => { t with producer := some prod }
    | none =>
      match pySplit description with
      | [] => t
      | w :: _ => { t with producer := some w }

/-- Case-insensitive literal substring search: the semantics of
`re.search(pattern, description, re.IGNORECASE)` for the literal
(metacharacter-free) patterns used by the tests of the repository, e.g.
`walmart` and `netflix` in `test_processing.py:41-44`. -/
def reSearchCI (pat desc : String) : Bool :=
  pyIn (pyLower pat) (pyLower desc)

/-- The result dict of `calculate_cash_allocation`
(keys `Spending`, `Saving`, `Investing`). -/
structure CashAllocation where
  spending : ℚ
  saving : ℚ
  investing : ℚ
  deriving DecidableEq, Repr

/-- Sum of an Amount column. -/
def sumAmounts (l : List Transaction) : ℚ :=
  (l.map Transaction.amount).sum

/-- Expense filter `df[df[TransactionSchema.TYPE] == "Expense"]` (`calculation.py:35`). -/
def expenseRows (df : List Transaction) : List Transaction :=
  df.filter (fun t => decide (t.type = some "Expense"))

/-- Sum `total_expenses` of `calculation.py:36`. -/
def totalExpensesOf (df : List Transaction) : ℚ :=
  sumAmounts (expenseRows df)

/-- Bucket `spending` of `calculation.py:39-40`: expense rows whose category is
not in `["Savings", "Investments"]` (`~isin`; a NaN category is not in
the list, so such rows count as spending). -/
def spendingOf (df : List Transaction) : ℚ :=
  sumAmounts ((expenseRows df).filter (fun t =>
    decide (¬ (t.category = some "Savings" ∨ t.category = some "Investments"))))

/-- Bucket `saving` of `calculation.py:42-43`. -/
def savingOf (df : List Transaction) : ℚ :=
  sumAmounts ((expenseRows df).filter (fun t => decide (t.category = some "Savings")))

/-- Bucket `investing` of `calculation.py:45-46`. -/
def investingOf (df : List Transaction) : ℚ :=
  sumAmounts ((expenseRows df).filter (fun t => decide (t.category = some "Investments")))

/-- Embedding of `calculate_cash_allocation` (`calculation.py:24-56`). -/
def calculate_cash_allocation (df : List Transaction) : CashAllocation :=
  if 0 < totalExpensesOf df then
    { spending := spendingOf df / totalExpensesOf df * 100
      saving := savingOf df / totalExpensesOf df * 100
      investing := investingOf df / totalExpensesOf df * 100 }
  else { spending := 0, saving := 0, investing := 0 }

/-- One row of the aggregated category data fed to
`calculate_budget_comparison` (the output shape of
`aggregate_by_category`: columns Type, Category, Amount). -/
structure CategoryAggRow where
  type : Option String
  category : Option String
  amount : ℚ
  deriving DecidableEq, Repr

/-- One row of the budget table restricted to
`[CategorySchema.MAIN_CATEGORY, CategorySchema.BUDGET]`
(`calculation.py:77`). -/
structure BudgetRow where
  mainCategory : String
  budget : ℚ
  deriving DecidableEq, Repr

/-- One row of the merged result of `calculate_budget_comparison`:
the left columns plus `Main Category` and `Budget Amount` from the
budget table (unset on unmatched rows) and the two derived columns. -/
structure BudgetComparisonRow where
  type : Option String
  category : Option String
  amount : ℚ
  mainCategory : Option String
  budgetAmount : Option ℚ
  budgetUsedPct : Option ℚ
  difference : Option ℚ
  deriving DecidableEq, Repr

/-- Left join `pd.merge(expenses, budget, left_on=Category, right_on=Main Category,
how="left")` (`calculation.py:75-81`): each left row is paired with
every matching right row, or kept once with the right columns unset
when no right row matches. -/
def mergeJoinRow (budget : List BudgetRow) (e : CategoryAggRow) : List BudgetComparisonRow :=
  let ms := budget.filter (fun b => decide (e.category = some b.mainCategory))
  if ms.isEmpty then
    [{ type := e.type, category := e.category, amount := e.amount
       mainCategory := none, budgetAmount := none
       budgetUsedPct := none, difference := none }]
  else ms.map (fun b =>
    { type := e.type, category := e.category, amount := e.amount
      mainCategory := some b.mainCategory, budgetAmount := some b.budget
      budgetUsedPct := none, difference := none })

/-- The whole left join. -/
def mergeLeftOnCategory (expenses : List CategoryAggRow) (budget : List BudgetRow) :
    List BudgetComparisonRow :=
  expenses.flatMap (mergeJoinRow budget)

/-- Column assignment of `calculation.py:84-85`:
`Budget Used (%) = Amount / Budget Amount * 100`, vectorized over the
frame, propagating an unset budget. -/
def addBudgetUsedCol (r : BudgetComparisonRow) : BudgetComparisonRow :=
  { r with budgetUsedPct := r.budgetAmount.map (fun b => r.amount / b * 100) }

/-- Column assignment of `calculation.py:88`:
`Difference = Budget Amount - Amount`, vectorized over the frame,
propagating an unset budget. -/
def addDifferenceCol (r : BudgetComparisonRow) : BudgetComparisonRow :=
  { r with difference := r.budgetAmount.map (fun b => b - r.amount) }

/-- Embedding of `calculate_budget_comparison` (`calculation.py:59-90`): restrict to
expense rows, left-join against the budget table, then add the
column `Budget Used (%)` and the column `Difference`. -/
def calculate_budget_comparison (actual_data : List CategoryAggRow)
    (budget_data : List BudgetRow) : List BudgetComparisonRow :=
  let expenses := actual_data.filter (fun t => decide (t.type = some "Expense"))
  let result := mergeLeftOnCategory expenses budget_data
  let withUsed := result.map addBudgetUsedCol
  withUsed.map addDifferenceCol

/-- Specification-side single-pass reading of §4.6 / C6: expense rows
left-joined on category name, each joined row carrying
`Amount / Budget Amount * 100` and `Budget Amount - Amount`, unmatched
rows keeping the budget-derived fields unset.  To be proved equal to
`calculate_budget_comparison`. -/
def specJoinRow (budget : List BudgetRow) (e : CategoryAggRow) : List BudgetComparisonRow :=
  match budget.filter (fun b => decide (e.category = some b.mainCategory)) with
  | [] =>
    [{ type := e.type, category := e.category, amount := e.amount
       mainCategory := none, budgetAmount := none
       budgetUsedPct := none, difference := none }]
  | ms => ms.map (fun b =>
    { type := e.type, category := e.category, amount := e.amount
      mainCategory := some b.mainCategory, budgetAmount := some b.budget
      budgetUsedPct := some (e.amount / b.budget * 100)
      difference := some (b.budget - e.amount) })

/-- The whole specification-side comparison. -/
def budgetComparisonSpec (actual_data : List CategoryAggRow)
    (budget_data : List BudgetRow) : List BudgetComparisonRow :=
  (actual_data.filter (fun t => decide (t.type = some "Expense"))).flatMap
    (specJoinRow budget_data)

/-- Concrete actual rows for C6: Housing 800 and Food 300 match budget
entries; Pets has none. -/
def exC6Actual : List CategoryAggRow :=
  [{ type := some "Expense", category := some "Housing", amount := 800 },
   { type := some "Expense", category := some "Food", amount := 300 },
   { type := some "Expense", category := some "Pets", amount := 50 },
   { type := some "Income", category := some "Income", amount := 5000 }]

/-- Concrete budget rows for C6. -/
def exC6Budget : List BudgetRow :=
  [{ mainCategory := "Housing", budget := 1000 },
   { mainCategory := "Food", budget := 200 }]

/-- The expense split of §8.2: 800 Housing / 300 Savings /
400 Investments. -/
def exC5 : List Transaction :=
  [{ blankRow with type := some "Expense", category := some "Housing", amount := 800 },
   { blankRow with type := some "Expense", category := some "Savings", amount := 300 },
   { blankRow with type := some "Expense", category := some "Investments", amount := 400 }]

/-- One row of the frame fed to `calculate_monthly_growth_rate`; the
`Date` cell is abstracted to the year and month that
`pd.to_datetime(...).dt.strftime("%Y-%m")` extracts from it.  The sort
key `year * 100 + month` orders exactly as the zero-padded `YYYY-MM`
strings do (pandas timestamps always render four-digit years). -/
structure DatedRow where
  year : ℕ
  month : ℕ
  type : Option String
  amount : ℚ
  deriving DecidableEq, Repr

/-- The `"%Y-%m"` month key of a row. -/
def monthKey (r : DatedRow) : ℕ :=
  r.year * 100 + r.month

/-- Insert into a sorted list of keys. -/
def insertSorted (x : ℕ) : List ℕ → List ℕ
  | [] => [x]
  | y :: ys => if x ≤ y then x :: y :: ys else y :: insertSorted x ys

/-- Ascending insertion sort of month keys. -/
def sortKeys (l : List ℕ) : List ℕ :=
  l.foldr insertSorted []

/-- Grouping `groupby(["Month", Type])` drops rows whose `Type` cell is NaN
(pandas groups with `dropna=True`). -/
def groupedRows (df : List DatedRow) : List DatedRow :=
  df.filter (fun r => r.type.isSome)

/-- The sorted index of the month pivot of `calculation.py:108-114`:
the distinct month keys of the grouped rows, ascending
(`groupby` sorts its keys and `pivot` is followed by `sort_index()`). -/
def sortedMonths (df : List DatedRow) : List ℕ :=
  sortKeys ((groupedRows df).map monthKey).dedup

/-- Truncation `pivot.tail(months)` (`calculation.py:117`): the trailing `months`
entries of the sorted month index. -/
def keptMonths (df : List DatedRow) (months : ℕ) : List ℕ :=
  (sortedMonths df).drop ((sortedMonths df).length - months)

/-- The pivot cell for month `m` and type column `t`: the summed amount
of the rows in that group, `0` when the group is empty (`fillna(0)`). -/
def pivotValue (df : List DatedRow) (m : ℕ) (t : String) : ℚ :=
  ((df.filter (fun r => decide (monthKey r = m ∧ r.type = some t))).map DatedRow.amount).sum

/-- Test `col in pivot.columns` (`calculation.py:123`): the pivot has a
column for each distinct `Type` value among the grouped rows. -/
def pivotHasCol (df : List DatedRow) (t : String) : Bool :=
  df.any (fun r => r.type == some t)

/-- The per-column loop body of `calculation.py:122-133`: if the column
exists and at least two months were kept, take the first and last kept
values; a positive first value yields `(last/first - 1) * 100`,
anything else yields `0`. -/
def growthFor (df : List DatedRow) (months : ℕ) (t : String) : ℚ :=
  let kept := keptMonths df months
  if pivotHasCol df t ∧ 2 ≤ kept.length then
    let first := pivotValue df (kept.headD 0) t
    if 0 < first then (pivotValue df (kept.getLastD 0) t / first - 1) * 100 else 0
  else 0

/-- The result dict of `calculate_monthly_growth_rate`
(keys `Income Growth`, `Expense Growth`). -/
structure GrowthRates where
  incomeGrowth : ℚ
  expenseGrowth : ℚ
  deriving DecidableEq, Repr

/-- Embedding of `calculate_monthly_growth_rate` (`calculation.py:93-135`). -/
def calculate_monthly_growth_rate (df : List DatedRow) (months : ℕ) : GrowthRates :=
  { incomeGrowth := growthFor df months "Income"
    expenseGrowth := growthFor df months "Expense" }

/-- The call with the Python default `months = 3`. -/
def calculate_monthly_growth_rate_default (df : List DatedRow) : GrowthRates :=
  calculate_monthly_growth_rate df 3

/-- Specification-side reading of C7 for one type column: keep the
trailing `months` entries of the chronologically sorted month index;
with at least two kept months and a positive first-month value the
growth is `(last/first - 1) * 100`, else `0`.  (The source additionally
tests `col in pivot.columns`; when the column is missing every pivot
value is `0`, so the first-month value is not positive and both
readings give `0`.) -/
def growthSpec (df : List DatedRow) (months : ℕ) (t : String) : ℚ :=
  match keptMonths df months with
  | [] => 0
  | [_] => 0
  | m1 :: m2 :: rest =>
    let first := pivotValue df m1 t
    if 0 < first then (pivotValue df ((m2 :: rest).getLastD 0) t / first - 1) * 100
    else 0

/-- Embedding of `calculate_savings_rate` (`calculation.py:138-153`). -/
def calculate_savings_rate (income expenses : ℚ) : ℚ :=
  if 0 < income then (income - expenses) / income * 100 else 0

/-- The chart registry of `create_visualisations`
(`charts/manager.py:99-123`), in insertion order; the budget-comparison
chart is registered only when budget data is supplied. -/
def registryKeys (hasBudget : Bool) : List String :=
  ["category_spending", "cash_allocation", "monthly_comparison", "net_cashflow",
   "category_heatmap", "top_vendors", "daily_spending", "weekday_spending",
   "cumulative_cashflow", "monthly_category_proportion", "category_treemap",
   "sankey_flow"] ++ (if hasBudget then ["budget_comparison"] else [])

/-- Line `charts_to_generate = chart_types if chart_types else all_charts.keys()`
(`charts/manager.py:126`): `None` and the empty list are both falsy. -/
def chartsToGenerate (hasBudget : Bool) (chartTypes : Option (List String)) : List String :=
  match chartTypes with
  | some l => if l.isEmpty then registryKeys hasBudget else l
  | none => registryKeys hasBudget

/-- Python dict assignment `d[k] = v` on an insertion-ordered dict:
overwrite in place if the key exists, else append. -/
def dictInsert {α : Type} (k : String) (v : α) : List (String × α) → List (String × α)
  | [] => [(k, v)]
  | (k2, v2) :: rest =>
    if k = k2 then (k, v) :: rest else (k2, v2) :: dictInsert k v rest

/-- The main generation loop of `charts/manager.py:129-137`: starting
from the empty `results` dict, each requested chart type is looked up
in the registry and its routine invoked for its file-writing side
effect — the return value of the routine is discarded and `results` is never
assigned to (unrecognized names only print a warning).  The chart
return values of the routines are abstracted as `gen`. -/
def mainGenerationLoop {α : Type} (gen : String → α) (hasBudget : Bool)
    (toGen : List String) : List (String × α) :=
  toGen.foldl (fun results chart_type =>
    if (registryKeys hasBudget).contains chart_type then
      (fun _ => results) (gen chart_type)
    else results) []

/-- The dependent-chart pass of `charts/manager.py:139-149`: only when
`"monthly_comparison" in results` are the net-cashflow and
category-heatmap routines re-invoked by name and their results stored. -/
def dependentChartPass {α : Type} (gen : String → α) (chartTypes : Option (List String))
    (toGen : List String) (results : List (String × α)) : List (String × α) :=
  if (results.map Prod.fst).contains "monthly_comparison" then
    let results1 :=
      if toGen.contains "net_cashflow" || decide (chartTypes = none) then
        dictInsert "net_cashflow" (gen "net_cashflow") results
      else results
    if toGen.contains "category_heatmap" || decide (chartTypes = none) then
      dictInsert "category_heatmap" (gen "category_heatmap") results1
    else results1
  else results

/-- Embedding of `create_visualisations` (`charts/manager.py:65-151`), restricted to
its result-collection behavior: the transaction/budget frames only
select which charts exist in the registry (`hasBudget`), the chart
routines are abstracted as `gen`, and the returned dict is the main
`results` dict of the loop as transformed by the dependent-chart pass. -/
def create_visualisations {α : Type} (gen : String → α) (hasBudget : Bool)
    (chartTypes : Option (List String)) : List (String × α) :=
  let toGen := chartsToGenerate hasBudget chartTypes
  dependentChartPass gen chartTypes toGen (mainGenerationLoop gen hasBudget toGen)

/-! Helper lemmas -/

/-- Every row produced by the type-inference block has a non-negative
amount: re-derived Income rows had `0 ≤ Amount` already and re-derived
Expense rows carry an absolute value. -/
theorem inferTypesAndAbs_nonneg (rows : List Transaction) :
    ∀ r ∈ inferTypesAndAbs rows, 0 ≤ r.amount := by
  intro r hr
  simp only [inferTypesAndAbs, List.map_map, List.mem_map, Function.comp] at hr
  obtain ⟨r0, _, rfl⟩ := hr
  by_cases h : 0 ≤ r0.amount <;> simp [h, abs_nonneg]

/-- Claim C1 (corrected), counterexample to the claim as stated: for the
input `exC1`, whose every row supplies a `Type` and whose amount is
negative, the cleaned table does not satisfy `Amount ≥ 0`. -/
theorem c1_counterexample : ¬ (∀ r ∈ clean_transaction_data exC1, 0 ≤ r.amount) := by
  decide

/-- Claim C1 (amended): every row returned by `clean_transaction_data`
has `Amount ≥ 0` whenever the `Type` column is absent or the `Type` of some row is unset (the condition that triggers the inference block);
when every row supplies a `Type`, the amounts — negative ones
included — pass through unchanged. -/
theorem c1_amount_nonneg :
    (∀ f : RawFrame, typeInferenceNeeded f = true →
      ∀ r ∈ clean_transaction_data f, 0 ≤ r.amount) ∧
    (∀ f : RawFrame, typeInferenceNeeded f = false →
      (clean_transaction_data f).map Transaction.amount = f.rows.map Transaction.amount) := by
  constructor
  · intro f hf r hr
    simp only [clean_transaction_data, hf, if_true] at hr
    exact inferTypesAndAbs_nonneg _ r hr
  · intro f hf
    simp only [clean_transaction_data, hf, Bool.false_eq_true, if_false, withSchemaCols,
      List.map_map]
    refine List.map_congr_left ?_
    intro r _
    by_cases h : f.hasTypeCol <;> simp [h, Function.comp]

/-- Witness for the amended C1 at the concrete frame `exC2`. -/
theorem c1_amount_nonneg_witness :
    typeInferenceNeeded exC2 = true ∧
      0 ≤ ((clean_transaction_data exC2).headD blankRow).amount :=
  ⟨by decide, c1_amount_nonneg.1 exC2 (by decide) _ (by decide)⟩

/-- Claim C2: when the `Type` column is absent or the `Type` of any row is
unset, cleaning re-derives `Type` for all rows uniformly from the sign
of `Amount` (non-negative to Income, negative to Expense), overwriting
any caller-supplied `Type`, and replaces the amount by its absolute
value (the identity on the non-negative Income rows); in particular the
fixture with raw amounts 1000, -50, -15.99 and no `Type` column cleans
to Income/Expense/Expense with amounts 1000, 50, 15.99. -/
theorem c2_sign_inference :
    (∀ f : RawFrame, typeInferenceNeeded f = true →
      clean_transaction_data f = f.rows.map (fun r =>
        { r with
            type := some (if 0 ≤ r.amount then "Income" else "Expense")
            amount := |r.amount| })) ∧
    (clean_transaction_data exC2).map (fun r => (r.type, r.amount)) =
      [(some "Income", (1000 : ℚ)), (some "Expense", 50), (some "Expense", mkRat 1599 100)] := by
  constructor
  · intro f hf
    simp only [clean_transaction_data, hf, if_true, inferTypesAndAbs, withSchemaCols,
      List.map_map]
    refine List.map_congr_left ?_
    intro r _
    by_cases hT : f.hasTypeCol <;> by_cases h : 0 ≤ r.amount
    · simp [hT, h, Function.comp, abs_of_nonneg h]
    · simp [hT, h, Function.comp]
    · simp [hT, h, Function.comp, abs_of_nonneg h]
    · simp [hT, h, Function.comp]
  · decide

/-- Witness for C2 at the concrete frame `exC2`. -/
theorem c2_sign_inference_witness :
    typeInferenceNeeded exC2 = true ∧
      clean_transaction_data exC2 = exC2.rows.map (fun r =>
        { r with
            type := some (if 0 ≤ r.amount then "Income" else "Expense")
            amount := |r.amount| }) :=
  ⟨by decide, c2_sign_inference.1 exC2 (by decide)⟩

/-- Claim C3: `categorize_transaction` decides with strict precedence —
a supplied producer-to-category map whose keys contain the
producer of the transaction wins over any keyword rule; otherwise the first
keyword match (rule table scanned in order, each keyword list in order,
case-insensitive substring of the description) assigns its category;
otherwise the default is Income for `Type == Income`, else
Miscellaneous. -/
theorem c3_categorize_precedence :
    (∀ (t : Transaction) (rules : List (String × List String))
        (m : List (String × String)) (p c : String),
      t.producer = some p → m.lookup p = some c →
      (categorize_transaction t rules (some m)).category = some c) ∧
    (∀ (t : Transaction) (rules : List (String × List String))
        (pmap : Option (List (String × String))) (c : String),
      producerHit t pmap = none →
      scanRules (pyLower (strCell t.description)) rules = some c →
      (categorize_transaction t rules pmap).category = some c) ∧
    (∀ (t : Transaction) (rules : List (String × List String))
        (pmap : Option (List (String × String))),
      producerHit t pmap = none →
      scanRules (pyLower (strCell t.description)) rules = none →
      (categorize_transaction t rules pmap).category =
        some (if t.type = some "Income" then "Income" else "Miscellaneous")) := by
  refine ⟨?_, ?_, ?_⟩
  · intro t rules m p c hp hc
    have hne : m.isEmpty = false := by
      cases m with
      | nil => simp [List.lookup] at hc
      | cons a l => rfl
    have hhit : producerHit t (some m) = some c := by
      simp [producerHit, hne, hp, hc]
    simp [categorize_transaction, hhit]
  · intro t rules pmap c h1 h2
    simp [categorize_transaction, h1, h2]
  · intro t rules pmap h1 h2
    by_cases ht : t.type = some "Income" <;>
      simp [categorize_transaction, h1, h2, ht]

/-- Witness for C3: a transaction whose producer Walmart is pre-mapped
to Shopping is classified Shopping even though its description also
matches the Entertainment keyword rule `netflix`. -/
theorem c3_categorize_precedence_witness :
    ({ blankRow with
         description := some "Netflix Subscription"
         producer := some "Walmart" } : Transaction).producer = some "Walmart" ∧
      ([("Walmart", "Shopping")] : List (String × String)).lookup "Walmart" = some "Shopping" ∧
      (categorize_transaction
          { blankRow with
              description := some "Netflix Subscription"
              producer := some "Walmart" }
          [("Entertainment", ["netflix"])]
          (some [("Walmart", "Shopping")])).category = some "Shopping" :=
  ⟨rfl, by decide,
    c3_categorize_precedence.1
      { blankRow with
          description := some "Netflix Subscription"
          producer := some "Walmart" }
      [("Entertainment", ["netflix"])]
      [("Walmart", "Shopping")] "Walmart" "Shopping" rfl (by decide)⟩

/-- Claim C10: `categorize_transaction` assigns only `Category` — every
other field of the returned record equals the corresponding input
field.  (The source copies the input Series before assigning, so the
record of the caller is untouched; in this pure embedding that copy
semantics is implicit.) -/
theorem c10_categorize_frame (t : Transaction) (rules : List (String × List String))
    (pmap : Option (List (String × String))) :
    (categorize_transaction t rules pmap).date = t.date ∧
      (categorize_transaction t rules pmap).description = t.description ∧
      (categorize_transaction t rules pmap).amount = t.amount ∧
      (categorize_transaction t rules pmap).type = t.type ∧
      (categorize_transaction t rules pmap).subcategory = t.subcategory ∧
      (categorize_transaction t rules pmap).producer = t.producer ∧
      (categorize_transaction t rules pmap).paymentMethod = t.paymentMethod ∧
      (categorize_transaction t rules pmap).notes = t.notes := by
  simp only [categorize_transaction]
  rcases producerHit t pmap with _ | c
  · rcases scanRules (pyLower (strCell t.description)) rules with _ | c
    · by_cases ht : t.type = some "Income" <;> simp [ht]
    · simp
  · simp

/-- Claim C4: `extract_producer` never overwrites an existing producer —
on a transaction whose producer is set the result is the unchanged
input, and the function is idempotent outright; on a transaction with
an unset producer a matching pattern from the supplied table (first
match in table order) wins over the first-word fallback.  Stated for
every regex-search oracle `reSearch`. -/
theorem c4_extract_producer :
    (∀ (reSearch : String → String → Bool) (t : Transaction)
        (pats : Option (List (String × String))) (p : String),
      t.producer = some p → extract_producer reSearch t pats = t) ∧
    (∀ (reSearch : String → String → Bool) (t : Transaction)
        (pats : Option (List (String × String))),
      extract_producer reSearch (extract_producer reSearch t pats) pats =
        extract_producer reSearch t pats) ∧
    (∀ (reSearch : String → String → Bool) (t : Transaction)
        (pats : List (String × String)) (prod : String),
      t.producer = none →
      scanPatterns reSearch (strCell t.description) pats = some prod →
      extract_producer reSearch t (some pats) = { t with producer := some prod }) := by
  refine ⟨?_, ?_, ?_⟩
  · intro reSearch t pats p hp
    simp [extract_producer, hp]
  · intro reSearch t pats
    by_cases hs : t.producer.isSome
    · simp [extract_producer, hs]
    · have hp : t.producer = none := by
        cases h : t.producer with
        | none => rfl
        | some p => rw [h] at hs; simp at hs
      rcases hscan : scanPatterns reSearch (strCell t.description) (patternsOf pats)
        with _ | prod
      · rcases hsplit : pySplit (strCell t.description) with _ | ⟨w, ws⟩
        · simp [extract_producer, hs, hscan, hsplit]
        · simp [extract_producer, hs, hscan, hsplit]
      · simp [extract_producer, hs, hscan]
  · intro reSearch t pats prod hp hscan
    have hs : t.producer.isSome = false := by rw [hp]; rfl
    simp [extract_producer, hs, patternsOf, hscan]

/-- Witness for C4: with the case-insensitive literal search oracle and
the pattern table of `test_processing.py`, the transaction described
"Groceries at Walmart" (producer unset) gets producer `Walmart` from
the pattern even though the first word of the description is
"Groceries". -/
theorem c4_extract_producer_witness :
    ({ blankRow with description := some "Groceries at Walmart" } : Transaction).producer
        = none ∧
      scanPatterns reSearchCI
        (strCell ({ blankRow with
          description := some "Groceries at Walmart" } : Transaction).description)
        [("walmart", "Walmart"), ("netflix", "Netflix")] = some "Walmart" ∧
      extract_producer reSearchCI
        { blankRow with description := some "Groceries at Walmart" }
        (some [("walmart", "Walmart"), ("netflix", "Netflix")]) =
        { blankRow with
            description := some "Groceries at Walmart"
            producer := some "Walmart" } :=
  ⟨rfl, by decide,
    c4_extract_producer.2.2 reSearchCI
      { blankRow with description := some "Groceries at Walmart" }
      [("walmart", "Walmart"), ("netflix", "Netflix")] "Walmart" rfl (by decide)⟩

/-- Summing an Amount column distributes over cons. -/
theorem sumAmounts_cons (x : Transaction) (l : List Transaction) :
    sumAmounts (x :: l) = x.amount + sumAmounts l := by
  simp [sumAmounts]

/-- The three allocation buckets partition the expense total: every
expense row falls in exactly one of spending (category neither Savings
nor Investments), saving, or investing. -/
theorem allocation_partition (df : List Transaction) :
    spendingOf df + savingOf df + investingOf df = totalExpensesOf df := by
  unfold spendingOf savingOf investingOf totalExpensesOf
  generalize expenseRows df = l
  induction l with
  | nil => simp [sumAmounts]
  | cons x tl ih =>
    by_cases h1 : x.category = some "Savings" <;> by_cases h2 : x.category = some "Investments"
    · rw [h1] at h2; exact absurd h2 (by decide)
    · have hsp : decide (¬ (x.category = some "Savings" ∨ x.category = some "Investments"))
          = false := by simp [h1]
      have hsa : decide (x.category = some "Savings") = true := by simp [h1]
      have hin : decide (x.category = some "Investments") = false := by simp [h2]
      simp only [List.filter_cons, hsp, hsa, hin, if_true, if_false, Bool.false_eq_true,
        sumAmounts_cons]
      linarith [ih]
    · have hsp : decide (¬ (x.category = some "Savings" ∨ x.category = some "Investments"))
          = false := by simp [h2]
      have hsa : decide (x.category = some "Savings") = false := by simp [h1]
      have hin : decide (x.category = some "Investments") = true := by simp [h2]
      simp only [List.filter_cons, hsp, hsa, hin, if_true, if_false, Bool.false_eq_true,
        sumAmounts_cons]
      linarith [ih]
    · have hsp : decide (¬ (x.category = some "Savings" ∨ x.category = some "Investments"))
          = true := by simp [h1, h2]
      have hsa : decide (x.category = some "Savings") = false := by simp [h1]
      have hin : decide (x.category = some "Investments") = false := by simp [h2]
      simp only [List.filter_cons, hsp, hsa, hin, if_true, if_false, Bool.false_eq_true,
        sumAmounts_cons]
      linarith [ih]

/-- Claim C5: whenever the expense rows have a positive total,
`calculate_cash_allocation` returns the Savings share, the Investments
share and the share of every other expense category as percentages of
the total, and the three sum to exactly 100; when the total is not
positive it returns all three as 0. -/
theorem c5_cash_allocation :
    (∀ df : List Transaction, 0 < totalExpensesOf df →
      (calculate_cash_allocation df).spending = spendingOf df / totalExpensesOf df * 100 ∧
      (calculate_cash_allocation df).saving = savingOf df / totalExpensesOf df * 100 ∧
      (calculate_cash_allocation df).investing = investingOf df / totalExpensesOf df * 100 ∧
      (calculate_cash_allocation df).spending + (calculate_cash_allocation df).saving +
        (calculate_cash_allocation df).investing = 100) ∧
    (∀ df : List Transaction, ¬ 0 < totalExpensesOf df →
      calculate_cash_allocation df = { spending := 0, saving := 0, investing := 0 }) := by
  constructor
  · intro df h
    have hpart := allocation_partition df
    have hne : totalExpensesOf df ≠ 0 := ne_of_gt h
    simp only [calculate_cash_allocation, h, if_true]
    refine ⟨trivial, trivial, trivial, ?_⟩
    field_simp
    linarith [hpart]
  · intro df h
    simp [calculate_cash_allocation, h]

/-- Witness for C5 at the 800/300/400 expense split of §8.2. -/
theorem c5_cash_allocation_witness :
    0 < totalExpensesOf exC5 ∧
      (calculate_cash_allocation exC5).spending + (calculate_cash_allocation exC5).saving +
        (calculate_cash_allocation exC5).investing = 100 := by
  have hpos : 0 < totalExpensesOf exC5 := by
    norm_num [totalExpensesOf, expenseRows, sumAmounts, exC5, blankRow]
  exact ⟨hpos, (c5_cash_allocation.1 exC5 hpos).2.2.2⟩

/-- Deriving the two budget columns after the left join produces, per
left row, exactly the specification-side joined rows. -/
theorem mergeJoin_derive (budget : List BudgetRow) (e : CategoryAggRow) :
    ((mergeJoinRow budget e).map addBudgetUsedCol).map addDifferenceCol =
      specJoinRow budget e := by
  simp only [mergeJoinRow, specJoinRow]
  rcases h : budget.filter (fun b => decide (e.category = some b.mainCategory)) with _ | ⟨b, bs⟩
  · rw [h]
    rfl
  · rw [h]
    simp only [List.isEmpty_cons, Bool.false_eq_true, if_false, List.map_map]
    rfl

/-- The merge-then-derive pipeline equals the single-pass join, row list
by row list. -/
theorem budget_pipeline_eq (l : List CategoryAggRow) (budget : List BudgetRow) :
    ((l.flatMap (mergeJoinRow budget)).map addBudgetUsedCol).map addDifferenceCol =
      l.flatMap (specJoinRow budget) := by
  induction l with
  | nil => rfl
  | cons e es ih =>
    simp only [List.flatMap_cons, List.map_append, ih, mergeJoin_derive]

/-- Claim C6: `calculate_budget_comparison` restricts the actual rows to
`Type == Expense`, left-joins them on category name against the budget
table, computes `Budget Used (%) = Amount / Budget Amount * 100` and
`Difference = Budget Amount - Amount` on every joined row, and leaves
`Budget Amount` and both derived fields unset on rows without a
matching budget entry; concretely, actual 800 against budget 1000
gives 80.0 and 200.0, actual 300 against budget 200 gives 150.0 and
-100.0, and an unmatched category keeps all three fields unset. -/
theorem c6_budget_comparison :
    (∀ (actual : List CategoryAggRow) (budget : List BudgetRow),
      calculate_budget_comparison actual budget = budgetComparisonSpec actual budget) ∧
    calculate_budget_comparison exC6Actual exC6Budget =
      [{ type := some "Expense", category := some "Housing", amount := 800
         mainCategory := some "Housing", budgetAmount := some 1000
         budgetUsedPct := some 80, difference := some 200 },
       { type := some "Expense", category := some "Food", amount := 300
         mainCategory := some "Food", budgetAmount := some 200
         budgetUsedPct := some 150, difference := some (-100) },
       { type := some "Expense", category := some "Pets", amount := 50
         mainCategory := none, budgetAmount := none
         budgetUsedPct := none, difference := none }] := by
  constructor
  · intro actual budget
    unfold calculate_budget_comparison budgetComparisonSpec mergeLeftOnCategory
    exact budget_pipeline_eq _ _
  · simp [calculate_budget_comparison, mergeLeftOnCategory, mergeJoinRow,
      addBudgetUsedCol, addDifferenceCol, exC6Actual, exC6Budget,
      List.filter_cons, List.flatMap_cons, Function.comp]
    norm_num

/-- When the pivot has no column for `t`, every pivot cell of `t` is 0
(the group is empty). -/
theorem pivotValue_of_no_col (df : List DatedRow) (t : String) (m : ℕ)
    (h : pivotHasCol df t = false) : pivotValue df m t = 0 := by
  unfold pivotValue
  have hnil : df.filter (fun r => decide (monthKey r = m ∧ r.type = some t)) = [] := by
    rw [List.filter_eq_nil_iff]
    intro r hr
    simp only [decide_eq_true_eq, not_and]
    intro _
    unfold pivotHasCol at h
    rw [List.any_eq_false] at h
    have hm := h r hr
    simpa using hm
  rw [hnil]
  rfl

/-- The per-column growth computation of the source agrees with the
specification-side reading that drops the explicit column-existence
test. -/
theorem growthFor_eq_growthSpec (df : List DatedRow) (months : ℕ) (t : String) :
    growthFor df months t = growthSpec df months t := by
  unfold growthFor growthSpec
  rcases hk : keptMonths df months with _ | ⟨m1, _ | ⟨m2, rest⟩⟩
  · simp [hk]
  · simp [hk]
  · by_cases hcol : pivotHasCol df t = true
    · simp [hk, hcol]
    · have hfalse : pivotHasCol df t = false := by simpa using hcol
      have hz1 : pivotValue df m1 t = 0 := pivotValue_of_no_col df t m1 hfalse
      simp [hk, hfalse, hz1]

/-- Claim C7: `calculate_monthly_growth_rate` pivots summed amounts by
month and `Type`, sorts chronologically, keeps the trailing `months`
entries (`months = 3` by default), and for Income and Expense
independently returns `(last/first - 1) * 100` when at least two months
remain and the value of the first kept month is positive, else 0 for that
type. -/
theorem c7_growth_rate :
    (∀ (df : List DatedRow) (months : ℕ),
      calculate_monthly_growth_rate df months =
        { incomeGrowth := growthSpec df months "Income"
          expenseGrowth := growthSpec df months "Expense" }) ∧
    (∀ df : List DatedRow,
      calculate_monthly_growth_rate_default df = calculate_monthly_growth_rate df 3) := by
  constructor
  · intro df months
    unfold calculate_monthly_growth_rate
    rw [growthFor_eq_growthSpec, growthFor_eq_growthSpec]
  · intro df
    rfl

/-- Claim C8: `calculate_savings_rate` returns
`(income - expenses) / income * 100` whenever `income > 0` and `0`
otherwise, so the division is always guarded; in particular
`calculate_savings_rate 0 100 = 0` and
`calculate_savings_rate 2000 800 = 60`. -/
theorem c8_savings_rate :
    (∀ income expenses : ℚ, 0 < income →
      calculate_savings_rate income expenses = (income - expenses) / income * 100) ∧
    (∀ income expenses : ℚ, ¬ 0 < income → calculate_savings_rate income expenses = 0) ∧
    calculate_savings_rate 0 100 = 0 ∧
    calculate_savings_rate 2000 800 = 60 := by
  refine ⟨?_, ?_, ?_, ?_⟩
  · intro i e h
    simp [calculate_savings_rate, h]
  · intro i e h
    simp [calculate_savings_rate, h]
  · simp [calculate_savings_rate]
  · norm_num [calculate_savings_rate]

/-- Witness for C8 at income 2000, expenses 800. -/
theorem c8_savings_rate_witness :
    (0 : ℚ) < 2000 ∧ calculate_savings_rate 2000 800 = (2000 - 800) / 2000 * 100 :=
  ⟨by norm_num, c8_savings_rate.1 2000 800 (by norm_num)⟩

/-- The main generation loop never inserts into `results`: it folds the
requested chart list over the empty dict and returns it unchanged. -/
theorem mainGenerationLoop_eq_nil {α : Type} (gen : String → α) (hasBudget : Bool)
    (toGen : List String) : mainGenerationLoop gen hasBudget toGen = [] := by
  have hfun : (fun (results : List (String × α)) (chart_type : String) =>
      if (registryKeys hasBudget).contains chart_type then
        (fun _ => results) (gen chart_type)
      else results) = fun results _ => results := by
    funext results chart_type
    exact ite_self results
  have hconst : ∀ (l : List String) (acc : List (String × α)),
      l.foldl (fun results _ => results) acc = acc := by
    intro l
    induction l with
    | nil => intro acc; rfl
    | cons x xs ih =>
      intro acc
      rw [List.foldl_cons]
      exact ih acc
  unfold mainGenerationLoop
  rw [hfun]
  exact hconst toGen []

/-- Claim C9: the returned mapping of `create_visualisations` is never
populated from the main generation loop — that loop provably returns
the empty dict — and the returned value is exactly what the secondary
"dependent chart" pass produces from it; since that pass is itself
guarded by `"monthly_comparison" in results` over the empty dict, the
returned mapping is empty for every input, so all of its entries
(vacuously) come from the secondary pass. -/
theorem c9_orchestrator_results {α : Type} (gen : String → α) (hasBudget : Bool)
    (chartTypes : Option (List String)) :
    mainGenerationLoop gen hasBudget (chartsToGenerate hasBudget chartTypes) = [] ∧
    create_visualisations gen hasBudget chartTypes =
      dependentChartPass gen chartTypes (chartsToGenerate hasBudget chartTypes)
        (mainGenerationLoop gen hasBudget (chartsToGenerate hasBudget chartTypes)) ∧
    create_visualisations gen hasBudget chartTypes = [] := by
  refine ⟨mainGenerationLoop_eq_nil gen hasBudget _, rfl, ?_⟩
  simp only [create_visualisations]
  rw [mainGenerationLoop_eq_nil]
  rfl
